import Mathlib

/-!
Shallow embedding of the SUMO dispersion post-processing scripts
(`disper.py`, `better_disper.py`, `v2_better_disper.py`, `v3_better_disper.py`,
`v5_webapp.py`, `tanga.py`).  Points are pairs of field elements; numpy
elementwise arithmetic is written componentwise.  The arithmetic core is
polymorphic over a linear ordered field so that it is executable at `ℚ`;
the square root in `np.linalg.norm` and the `arctan2` in the bearing are
embedded over `ℝ`.
-/

namespace Sumo

section Core

variable {K : Type*} [LinearOrderedField K]

/-- Source `get_segment_position(start, direction, length, seg_index, num_segments)`
in `v2_better_disper.py` / `v5_webapp.py` / `better_disper.py` / `disper.py`:
`segment_length = length / num_segments; offset = (seg_index + 0.5) * segment_length;
return start + direction * offset` (numpy broadcast, componentwise). -/
def get_segment_position (start dir : K × K) (length : K)
    (segIndex numSegments : ℕ) : K × K :=
  let segmentLength := length / numSegments
  let offset := ((segIndex : K) + 0.5) * segmentLength
  (start.1 + dir.1 * offset, start.2 + dir.2 * offset)

/-- Source `start_point = -0.5 * L * direction` (v2/v5/better_disper/disper main loop). -/
def start_point (L : K) (dir : K × K) : K × K :=
  (-0.5 * L * dir.1, -0.5 * L * dir.2)

/-- Source `emission_per_m = normed_val * 1e-6 / 3600` (v2/v3/v5/better_disper/tanga). -/
def emission_per_m (normed : K) : K :=
  normed * 1e-6 / 3600

/-- Source `G_KM_H_TO_KG_M_S = 2.7778e-7` (`disper.py`, line 7). -/
def G_KM_H_TO_KG_M_S : K := 2.7778e-7

/-- Source `E = normed * G_KM_H_TO_KG_M_S` (`disper.py`). -/
def disper_E (normed : K) : K := normed * G_KM_H_TO_KG_M_S

/-- Source `C_i = 10 * Q / (wind_speed * mixing_height * 0.1 * r)`
(`v2_better_disper.py`, `v3_better_disper.py`, `v5_webapp.py`; `better_disper.py`
writes the same denominator as `U * H_wc * (0.1*dist)`). -/
def v2_conc_formula (Q U H r : K) : K :=
  10 * Q / (U * H * (0.1 * r))

/-- Source `C_i = 10 * Q / (U * H_wc * r)` (`disper.py`): no lateral factor on `r`. -/
def disper_conc_formula (Q U H r : K) : K :=
  10 * Q / (U * H * r)

/-- Source (`tanga.py`): `W_wc = 0.1 * x; if U_wc * H_wc * W_wc > 0:
C_wc = (10.0 * Q) / (U_wc * H_wc * W_wc) else: C_wc = 0.0`. -/
def tanga_C_wc (Q U H x : K) : K :=
  if 0 < U * H * (0.1 * x) then 10 * Q / (U * H * (0.1 * x)) else 0

/-- Source `r = max(r, 0.1)` (`disper.py`, "avoid div by zero"). -/
def clamp_disper (r : K) : K := max r 0.1

/-- Source `if r == 0: r = 0.1` (`v2_better_disper.py`, `v3_better_disper.py`,
`v5_webapp.py`; `better_disper.py` writes `if dist == 0: dist = 0.1`). -/
def clamp_v2 [DecidableEq K] (r : K) : K := if r = 0 then 0.1 else r

/-- `disper.py` per-segment concentration as a function of geometric distance:
clamp then formula. -/
def disper_segment_conc (Q U H d : K) : K :=
  disper_conc_formula Q U H (clamp_disper d)

/-- `v2_better_disper.py` per-segment concentration as a function of geometric
distance: clamp then formula. -/
def v2_segment_conc [DecidableEq K] (Q U H d : K) : K :=
  v2_conc_formula Q U H (clamp_v2 d)

/-- Source `np.linspace(a, b, n)` element `i` (`0 ≤ i < n`): for `n = 1` numpy
returns the single point `a`; for `n ≥ 2` it returns `a + i·(b − a)/(n − 1)`
(endpoints included). -/
def linspace (a b : K) (n i : ℕ) : K :=
  if n = 1 then a else a + (i : K) * ((b - a) / ((n : K) - 1))

/-- Source `get_segment_positions(start, direction, length, num_segments)` of
`v3_better_disper.py`: `relative_positions = np.linspace(-length/2 +
length/(2*num_segments), length/2 - length/(2*num_segments), num_segments)`
and `[start + direction * d for d in relative_positions]`; element `i`. -/
def get_segment_positions (start dir : K × K) (length : K)
    (numSegments i : ℕ) : K × K :=
  (start.1 + dir.1 * linspace (-(length / 2) + length / (2 * (numSegments : K)))
      (length / 2 - length / (2 * (numSegments : K))) numSegments i,
   start.2 + dir.2 * linspace (-(length / 2) + length / (2 * (numSegments : K)))
      (length / 2 - length / (2 * (numSegments : K))) numSegments i)

end Core

/-- Python `x % m` for real `x` and positive modulus `m`:
`x - m * ⌊x / m⌋`, which lies in `[0, m)`. -/
noncomputable def pmod (x m : ℝ) : ℝ := x - m * (⌊x / m⌋ : ℤ)

/-- `np.degrees`: radians to degrees. -/
noncomputable def np_degrees (r : ℝ) : ℝ := r * (180 / Real.pi)

/-- `np.arctan2(y, x)`: the quadrant-aware arctangent. -/
noncomputable def atan2 (y x : ℝ) : ℝ :=
  if 0 < x then Real.arctan (y / x)
  else if x < 0 then
    (if 0 ≤ y then Real.arctan (y / x) + Real.pi else Real.arctan (y / x) - Real.pi)
  else if 0 < y then Real.pi / 2
  else if y < 0 then -(Real.pi / 2)
  else 0

/-- Source (`is_downwind`, v2/v3/v5): `delta = receptor - src;
angle = (np.degrees(np.arctan2(delta[1], delta[0])) + 360) % 360`. -/
noncomputable def bearing_deg (src rec : ℝ × ℝ) : ℝ :=
  pmod (np_degrees (atan2 (rec.2 - src.2) (rec.1 - src.1)) + 360) 360

/-- The spec's reading of the same quantity: the bearing
`atan2(Δy, Δx)` in degrees, normalized to `[0, 360)`. -/
noncomputable def bearing_spec (src rec : ℝ × ℝ) : ℝ :=
  pmod (np_degrees (atan2 (rec.2 - src.2) (rec.1 - src.1))) 360

/-- Source `downwind_center = (wind_deg + 180) % 360` (v2/v3/v5 `is_downwind`). -/
noncomputable def downwind_center (windDeg : ℝ) : ℝ := pmod (windDeg + 180) 360

/-- Source `diff = min(abs(angle - downwind_center), 360 - abs(angle - downwind_center))`
(v2/v3/v5 `is_downwind`): the circular angular difference. -/
noncomputable def circ_diff (a c : ℝ) : ℝ := min |a - c| (360 - |a - c|)

/-- Source `is_downwind(src, receptor, wind_deg, half_angle)` (v2/v3/v5):
`return diff <= half_angle`. -/
noncomputable def is_downwind (src rec : ℝ × ℝ) (windDeg halfAngle : ℝ) : Prop :=
  circ_diff (bearing_deg src rec) (downwind_center windDeg) ≤ halfAngle

/-- `np.linalg.norm(p - q)` for 2-vectors. -/
noncomputable def dist2 (p q : ℝ × ℝ) : ℝ :=
  Real.sqrt ((p.1 - q.1) ^ 2 + (p.2 - q.2) ^ 2)

/-- The per-key aggregation behind `df.groupby(keys)[col].sum()`
(`disper_v3.py`, `v5_webapp.py`, `v7_webapp.py`): the total for a group key is
the sum of the values of the contributions carrying that key. -/
def aggregateBy {α κ M : Type*} [DecidableEq κ] [AddCommMonoid M]
    (key : α → κ) (val : α → M) (l : List α) (k : κ) : M :=
  ((l.filter fun a => key a = k).map val).sum

/-- `EDGE_TO_LANE` of `better_disper.py`: the geometry registry mapping edge
ids to lane names. -/
def EDGE_TO_LANE : List (String × String) :=
  [("-1232571604", "North Out"), ("-29251749#0", "East In"),
   ("-4922743#4", "West Out"), ("29251749#0", "East Out"),
   ("1232571604", "North In"), ("617654357#1", "South Out"),
   ("-617654357#1", "South In"), ("4922743#4", "West In"),
   ("237386421", "North In")]

/-- `EDGE_TO_LANE.get(edge_id)` as a registry lookup (`better_disper.py`;
`disper.py` writes `edge_to_lane.get(edge_id)`). -/
def edgeRegistry (e : String) : Option String := EDGE_TO_LANE.lookup e

/-- The record loop of `better_disper.py` (lines 80–84): for each `(edge_id,
value)` record, look the edge up in the registry; on `None`, print
`"Warning: Lane name not found for edge ID ..."` (counted here) and `continue`;
otherwise emit that record's computed contributions and keep going.  Returns
the emitted contributions in loop order and the count of warnings printed. -/
def processRecords (registry : String → Option String)
    (compute : String → ℝ → List ℝ) : List (String × ℝ) → List ℝ × ℕ
  | [] => ([], 0)
  | (e, v) :: rest =>
    match registry e with
    | none =>
      let r := processRecords registry compute rest
      (r.1, r.2 + 1)
    | some lane =>
      let r := processRecords registry compute rest
      (compute lane v ++ r.1, r.2)

/-- The record loop of `disper.py` (lines 63–67): `lane_name =
edge_to_lane.get(edge_id); if lane_name is None: continue` — the record is
skipped silently; the `None` branch prints nothing and increments nothing.
The second component counts warnings printed, and no branch of this loop
prints one. -/
def disper_processRecords (registry : String → Option String)
    (compute : String → ℝ → List ℝ) : List (String × ℝ) → List ℝ × ℕ
  | [] => ([], 0)
  | (e, v) :: rest =>
    match registry e with
    | none => disper_processRecords registry compute rest
    | some lane =>
      let r := disper_processRecords registry compute rest
      (compute lane v ++ r.1, r.2)

/-- `edge_to_lane` of `disper.py`: its geometry registry mapping edge ids to
lane names. -/
def edge_to_lane : List (String × String) :=
  [("-1232571604", "North Out"), ("-29251749#0", "South In"),
   ("-4922743#4", "West Out"), ("29251749#0", "South Out"),
   ("617654357#1", "East Out"), ("-617654357#1", "East In"),
   ("4922743#4", "West In"), ("237386421", "North In")]

/-- `edge_to_lane.get(edge_id)` of `disper.py` as a registry lookup. -/
def disperEdgeRegistry (e : String) : Option String := edge_to_lane.lookup e

end Sumo

namespace Sumo

/-- C1: the North-lane segment-0 pipeline of `v2_better_disper.py` with the
claimed configuration: position, per-length rate, segment rate Q, distance and
concentration, each within 1% of the claimed value (position and distance exact). -/
theorem c1_north_segment0_pipeline :
    get_segment_position (start_point 74.5 (0, -1)) (0, -1) 74.5 0 10 = ((0 : ℝ), 33.525)
    ∧ |emission_per_m 100 - (2.7778e-8 : ℝ)| ≤ 0.01 * 2.7778e-8
    ∧ |emission_per_m 100 * (74.5 / 10) - (2.0694e-7 : ℝ)| ≤ 0.01 * 2.0694e-7
    ∧ dist2 (get_segment_position (start_point 74.5 (0, -1)) (0, -1) 74.5 0 10) (0, 0)
        = 33.525
    ∧ |v2_segment_conc (emission_per_m 100 * (74.5 / 10)) 1 50
          (dist2 (get_segment_position (start_point 74.5 (0, -1)) (0, -1) 74.5 0 10) (0, 0))
        - (1.2347e-8 : ℝ)| ≤ 0.01 * 1.2347e-8
    ∧ |v2_segment_conc (emission_per_m 100 * (74.5 / 10)) 1 50
          (dist2 (get_segment_position (start_point 74.5 (0, -1)) (0, -1) 74.5 0 10) (0, 0))
        * 1e9 - (12.347 : ℝ)| ≤ 0.01 * 12.347 := by
  have hpos : get_segment_position (start_point 74.5 (0, -1)) (0, -1) 74.5 0 10
      = ((0 : ℝ), (33.525 : ℝ)) := by
    unfold get_segment_position start_point
    norm_num
  have hdist : dist2 (get_segment_position (start_point 74.5 (0, -1)) (0, -1) 74.5 0 10) (0, 0)
      = 33.525 := by
    rw [hpos]
    unfold dist2
    have h : ((0 : ℝ) - 0) ^ 2 + ((33.525 : ℝ) - 0) ^ 2 = 33.525 ^ 2 := by norm_num
    rw [h, Real.sqrt_sq (by norm_num : (0 : ℝ) ≤ 33.525)]
  refine ⟨hpos, ?_, ?_, hdist, ?_, ?_⟩
  · unfold emission_per_m; rw [abs_le]; constructor <;> norm_num
  · unfold emission_per_m; rw [abs_le]; constructor <;> norm_num
  · rw [hdist]
    unfold v2_segment_conc clamp_v2 v2_conc_formula emission_per_m
    rw [if_neg (by norm_num : (33.525 : ℝ) ≠ 0)]
    rw [abs_le]; constructor <;> norm_num
  · rw [hdist]
    unfold v2_segment_conc clamp_v2 v2_conc_formula emission_per_m
    rw [if_neg (by norm_num : (33.525 : ℝ) ≠ 0)]
    rw [abs_le]; constructor <;> norm_num

/-- C2 counterexample: in `better_disper.py` / `v2_better_disper.py` the
per-unit-length rate for the normalized rate 1 g/(km·h) is `1e-6/3600`, which is
not ≈ 2.7778e-7 — it is smaller than that constant even after multiplying by
100, so no reasonable tolerance makes the claim true there. -/
theorem c2_conversion_constant_cex :
    emission_per_m (1 : ℝ) ≠ 2.7778e-7 ∧ emission_per_m (1 : ℝ) * 100 < 2.7778e-7 := by
  unfold emission_per_m
  constructor <;> norm_num

/-- C2 amended: `disper.py` multiplies the normalized rate by
`G_KM_H_TO_KG_M_S = 2.7778e-7`, while `better_disper.py`, `v2_better_disper.py`,
`v3_better_disper.py`, `v5_webapp.py` and `tanga.py` multiply by `1e-6/3600`
≈ 2.7778e-10 (the exact g/(km·h) → kg/(m·s) factor, within 1e-4 relative error);
`disper.py`'s constant is about 1000 times the other scripts' factor. -/
theorem c2_conversion_constants_per_file (n : ℝ) :
    disper_E n = n * 2.7778e-7
    ∧ emission_per_m n = n * (1e-6 / 3600)
    ∧ |(1e-6 / 3600 : ℝ) - 2.7778e-10| ≤ 1e-4 * 2.7778e-10
    ∧ |(G_KM_H_TO_KG_M_S : ℝ) - 1000 * (1e-6 / 3600)| ≤ 1e-4 * G_KM_H_TO_KG_M_S := by
  refine ⟨rfl, ?_, ?_, ?_⟩
  · unfold emission_per_m; ring
  · rw [abs_le]; constructor <;> norm_num
  · unfold G_KM_H_TO_KG_M_S; rw [abs_le]; constructor <;> norm_num

/-- C3 counterexample: `disper.py`'s per-segment formula at Q = 1, U = 1, H = 50,
d = 1 yields 1/5, while the claimed formula `10·Q/(U·H·(0.1·d))` yields 2. -/
theorem c3_lateral_factor_cex :
    disper_conc_formula (1 : ℝ) 1 50 1 = 1 / 5
    ∧ 10 * (1 : ℝ) / (1 * 50 * (0.1 * 1)) = 2
    ∧ (1 / 5 : ℝ) ≠ 2 := by
  unfold disper_conc_formula
  refine ⟨by norm_num, by norm_num, by norm_num⟩

/-- C3 amended: `v2_better_disper.py`, `v3_better_disper.py`, `v5_webapp.py`,
`better_disper.py` and `tanga.py` compute `C = 10·Q/(U·H·(0.1·d))` — the lateral
spread factor 0.1 multiplies the distance in the denominator — but `disper.py`
omits the factor and computes `C = 10·Q/(U·H·d)`, exactly one tenth of the
factored value. -/
theorem c3_lateral_factor_per_file (Q U H d : ℝ) :
    v2_conc_formula Q U H d = 10 * Q / (U * H * (0.1 * d))
    ∧ (0 < U * H * (0.1 * d) → tanga_C_wc Q U H d = 10 * Q / (U * H * (0.1 * d)))
    ∧ disper_conc_formula Q U H d = 10 * Q / (U * H * d)
    ∧ v2_conc_formula Q U H d = 10 * disper_conc_formula Q U H d := by
  refine ⟨rfl, fun h => by unfold tanga_C_wc; rw [if_pos h], rfl, ?_⟩
  unfold v2_conc_formula disper_conc_formula
  rcases eq_or_ne (U * H * d) 0 with h | h
  · have h01 : U * H * (0.1 * d) = 0.1 * (U * H * d) := by ring
    rw [h01, h]
    simp
  · obtain ⟨hUH, hd⟩ := mul_ne_zero_iff.mp h
    obtain ⟨hU, hH⟩ := mul_ne_zero_iff.mp hUH
    field_simp
    ring

/-- C3 amended, witness: the tanga branch hypothesis holds at U = 1, H = 50, d = 1. -/
theorem c3_lateral_factor_per_file_witness :
    (0 : ℝ) < 1 * 50 * (0.1 * 1)
    ∧ (v2_conc_formula (1 : ℝ) 1 50 1 = 10 * 1 / (1 * 50 * (0.1 * 1))
        ∧ (0 < (1 : ℝ) * 50 * (0.1 * 1) → tanga_C_wc (1 : ℝ) 1 50 1 = 10 * 1 / (1 * 50 * (0.1 * 1)))
        ∧ disper_conc_formula (1 : ℝ) 1 50 1 = 10 * 1 / (1 * 50 * 1)
        ∧ v2_conc_formula (1 : ℝ) 1 50 1 = 10 * disper_conc_formula (1 : ℝ) 1 50 1) :=
  ⟨by norm_num, c3_lateral_factor_per_file 1 1 50 1⟩

/-- C5 counterexample: in `v2_better_disper.py` a geometric distance of 0.05 is
used unchanged — it is not raised to `max(0.05, 0.1) = 0.1` — so with U = 1,
H = 50 the denominator `U·H·0.1·d` falls below `U·H·0.1·0.1`. -/
theorem c5_clamp_cex :
    clamp_v2 (0.05 : ℝ) = 0.05
    ∧ max (0.05 : ℝ) 0.1 = 0.1
    ∧ clamp_v2 (0.05 : ℝ) ≠ max (0.05 : ℝ) 0.1
    ∧ (1 : ℝ) * 50 * 0.1 * clamp_v2 (0.05 : ℝ) < 1 * 50 * 0.1 * 0.1 := by
  have h : clamp_v2 (0.05 : ℝ) = 0.05 := by
    unfold clamp_v2; rw [if_neg (by norm_num : (0.05 : ℝ) ≠ 0)]
  have hm : max (0.05 : ℝ) 0.1 = 0.1 := max_eq_right (by norm_num)
  refine ⟨h, hm, ?_, ?_⟩
  · rw [h, hm]; norm_num
  · rw [h]; norm_num

/-- C5 amended: `disper.py` clamps the distance to `max(d, 0.1)`, which is always
≥ 0.1, so its denominator never falls below `U·H·0.1`; `v2_better_disper.py`
(and `v3`, `v5`, `better_disper.py`) replace only a distance of exactly 0 by
0.1, so every strictly positive distance — including those below 0.1 — is used
unchanged. -/
theorem c5_clamp_per_file (d : ℝ) (hd : 0 < d) :
    clamp_disper d = max d 0.1
    ∧ 0.1 ≤ clamp_disper d
    ∧ clamp_disper (0 : ℝ) = 0.1
    ∧ clamp_v2 d = d
    ∧ clamp_v2 (0 : ℝ) = 0.1 := by
  refine ⟨rfl, ?_, ?_, ?_, ?_⟩
  · show (0.1 : ℝ) ≤ max d 0.1
    exact le_max_right d 0.1
  · show max (0 : ℝ) 0.1 = 0.1
    exact max_eq_right (by norm_num)
  · unfold clamp_v2; rw [if_neg (ne_of_gt hd)]
  · unfold clamp_v2; simp

/-- C6: per-key aggregated totals are invariant under arbitrary permutation of
the contribution stream, for every grouping key function and every key. -/
theorem c6_aggregation_perm_invariant {α κ M : Type*} [DecidableEq κ]
    [AddCommMonoid M] (key : α → κ) (val : α → M) (l₁ l₂ : List α)
    (hperm : List.Perm l₁ l₂) (k : κ) :
    aggregateBy key val l₁ k = aggregateBy key val l₂ k :=
  List.Perm.sum_eq (List.Perm.map val (List.Perm.filter _ hperm))

/-- C6 witness: two orderings of the same two contributions give the same
"North" total. -/
theorem c6_aggregation_perm_invariant_witness :
    List.Perm [("North", (1 : ℚ)), ("South", 2)] [("South", (2 : ℚ)), ("North", 1)]
    ∧ aggregateBy Prod.fst Prod.snd [("North", (1 : ℚ)), ("South", 2)] "North"
        = aggregateBy Prod.fst Prod.snd [("South", (2 : ℚ)), ("North", 1)] "North" :=
  ⟨List.Perm.swap ("South", (2 : ℚ)) ("North", 1) [],
   c6_aggregation_perm_invariant Prod.fst Prod.snd _ _
     (List.Perm.swap ("South", (2 : ℚ)) ("North", 1) []) "North"⟩

/-- C7 counterexample: under `disper.py`'s clamp `max(d, 0.1)`, the distances
0.01 < 0.05 yield the *same* concentration (both are clamped to 0.1), so the
concentration is not strictly decreasing in distance on the whole domain. -/
theorem c7_strict_decrease_cex :
    (0.01 : ℝ) < 0.05
    ∧ disper_segment_conc (1 : ℝ) 1 50 0.01 = disper_segment_conc (1 : ℝ) 1 50 0.05
    ∧ ¬ disper_segment_conc (1 : ℝ) 1 50 0.05 < disper_segment_conc (1 : ℝ) 1 50 0.01 := by
  have h1 : clamp_disper (0.01 : ℝ) = 0.1 := max_eq_right (by norm_num)
  have h2 : clamp_disper (0.05 : ℝ) = 0.1 := max_eq_right (by norm_num)
  unfold disper_segment_conc
  rw [h1, h2]
  exact ⟨by norm_num, rfl, lt_irrefl _⟩

/-- C7 amended: for fixed Q > 0, U > 0, H > 0 the computed concentration is
strictly decreasing in the geometric distance on distances ≥ 0.1 (beyond the
clamp threshold), in both `disper.py` and `v2_better_disper.py`; below 0.1,
`disper.py`'s clamp makes it constant (see the counterexample). -/
theorem c7_strict_decrease_beyond_clamp (Q U H d₁ d₂ : ℝ) (hQ : 0 < Q)
    (hU : 0 < U) (hH : 0 < H) (hd₁ : 0.1 ≤ d₁) (h12 : d₁ < d₂) :
    disper_segment_conc Q U H d₂ < disper_segment_conc Q U H d₁
    ∧ v2_segment_conc Q U H d₂ < v2_segment_conc Q U H d₁ := by
  have hd₁0 : (0 : ℝ) < d₁ := lt_of_lt_of_le (by norm_num) hd₁
  have hd₂0 : (0 : ℝ) < d₂ := lt_trans hd₁0 h12
  have hc₁ : clamp_disper d₁ = d₁ := max_eq_left hd₁
  have hc₂ : clamp_disper d₂ = d₂ := max_eq_left (le_trans hd₁ h12.le)
  have hv₁ : clamp_v2 d₁ = d₁ := by unfold clamp_v2; rw [if_neg (ne_of_gt hd₁0)]
  have hv₂ : clamp_v2 d₂ = d₂ := by unfold clamp_v2; rw [if_neg (ne_of_gt hd₂0)]
  have hnum : (0 : ℝ) < 10 * Q := by linarith
  constructor
  · unfold disper_segment_conc disper_conc_formula
    rw [hc₁, hc₂]
    apply div_lt_div_of_pos_left hnum (by positivity)
    have := mul_pos hU hH
    nlinarith
  · unfold v2_segment_conc v2_conc_formula
    rw [hv₁, hv₂]
    apply div_lt_div_of_pos_left hnum (by positivity)
    have := mul_pos hU hH
    nlinarith

/-- C7 amended, witness at Q = 1, U = 1, H = 50, d₁ = 1, d₂ = 2. -/
theorem c7_strict_decrease_beyond_clamp_witness :
    (0 : ℝ) < 1 ∧ (0 : ℝ) < 50 ∧ (0.1 : ℝ) ≤ 1 ∧ (1 : ℝ) < 2
    ∧ (disper_segment_conc (1 : ℝ) 1 50 2 < disper_segment_conc (1 : ℝ) 1 50 1
        ∧ v2_segment_conc (1 : ℝ) 1 50 2 < v2_segment_conc (1 : ℝ) 1 50 1) :=
  ⟨by norm_num, by norm_num, by norm_num, by norm_num,
   c7_strict_decrease_beyond_clamp 1 1 50 1 2 (by norm_num) (by norm_num)
     (by norm_num) (by norm_num) (by norm_num)⟩

/-- `disper.py`'s loop never prints a warning, whatever the records. -/
theorem disper_processRecords_no_warnings (registry : String → Option String)
    (compute : String → ℝ → List ℝ) :
    ∀ l : List (String × ℝ), (disper_processRecords registry compute l).2 = 0 := by
  intro l
  induction l with
  | nil => rfl
  | cons hd tl ih =>
    obtain ⟨e, v⟩ := hd
    cases hreg : registry e <;> simp [disper_processRecords, hreg, ih]

/-- C8 counterexample: in `disper.py`, the record with the unregistered edge id
"ghost_edge" is skipped with *no* warning of any kind — the warning count is
unchanged by the record and is zero — contradicting "a warning is recorded". -/
theorem c8_silent_skip_cex :
    disperEdgeRegistry "ghost_edge" = none
    ∧ (disper_processRecords disperEdgeRegistry (fun _ v => [v])
          [("ghost_edge", 7)]).2
        = (disper_processRecords disperEdgeRegistry (fun _ v => [v])
          ([] : List (String × ℝ))).2
    ∧ (disper_processRecords disperEdgeRegistry (fun _ v => [v])
          [("ghost_edge", 7)]).2 = 0 :=
  ⟨rfl, rfl, rfl⟩

/-- C8 amended: a record whose edge id is absent from the geometry registry is
skipped — the emitted contributions are exactly those of the remaining records,
so the record contributes nothing to any total — and processing continues, in
both `better_disper.py` and `disper.py`; `better_disper.py` additionally prints
one warning for the skipped record, while `disper.py` skips silently, never
printing a warning. -/
theorem c8_unknown_lane_skipped_per_file (registry : String → Option String)
    (compute : String → ℝ → List ℝ) (e : String) (v : ℝ)
    (rest : List (String × ℝ)) (h : registry e = none) :
    (processRecords registry compute ((e, v) :: rest)).1
        = (processRecords registry compute rest).1
    ∧ (processRecords registry compute ((e, v) :: rest)).2
        = (processRecords registry compute rest).2 + 1
    ∧ ((processRecords registry compute ((e, v) :: rest)).1).sum
        = ((processRecords registry compute rest).1).sum
    ∧ (disper_processRecords registry compute ((e, v) :: rest)).1
        = (disper_processRecords registry compute rest).1
    ∧ (disper_processRecords registry compute ((e, v) :: rest)).2
        = (disper_processRecords registry compute rest).2
    ∧ ((disper_processRecords registry compute ((e, v) :: rest)).1).sum
        = ((disper_processRecords registry compute rest).1).sum
    ∧ (∀ l : List (String × ℝ), (disper_processRecords registry compute l).2 = 0) := by
  refine ⟨?_, ?_, ?_, ?_, ?_, ?_, disper_processRecords_no_warnings registry compute⟩
    <;> simp [processRecords, disper_processRecords, h]

/-- C8 amended, witness: the edge id "ghost_edge" is absent from
`better_disper.py`'s `EDGE_TO_LANE`, the record carrying it is skipped, one
warning is counted there and none in `disper.py`'s loop, and the remaining
record (a known edge) is still processed. -/
theorem c8_unknown_lane_skipped_per_file_witness :
    edgeRegistry "ghost_edge" = none
    ∧ ((processRecords edgeRegistry (fun _ v => [v]) [("ghost_edge", 7), ("237386421", 2)]).1
          = (processRecords edgeRegistry (fun _ v => [v]) [("237386421", 2)]).1
        ∧ (processRecords edgeRegistry (fun _ v => [v]) [("ghost_edge", 7), ("237386421", 2)]).2
          = (processRecords edgeRegistry (fun _ v => [v]) [("237386421", 2)]).2 + 1
        ∧ ((processRecords edgeRegistry (fun _ v => [v]) [("ghost_edge", 7), ("237386421", 2)]).1).sum
          = ((processRecords edgeRegistry (fun _ v => [v]) [("237386421", 2)]).1).sum
        ∧ (disper_processRecords edgeRegistry (fun _ v => [v]) [("ghost_edge", 7), ("237386421", 2)]).1
          = (disper_processRecords edgeRegistry (fun _ v => [v]) [("237386421", 2)]).1
        ∧ (disper_processRecords edgeRegistry (fun _ v => [v]) [("ghost_edge", 7), ("237386421", 2)]).2
          = (disper_processRecords edgeRegistry (fun _ v => [v]) [("237386421", 2)]).2
        ∧ ((disper_processRecords edgeRegistry (fun _ v => [v]) [("ghost_edge", 7), ("237386421", 2)]).1).sum
          = ((disper_processRecords edgeRegistry (fun _ v => [v]) [("237386421", 2)]).1).sum
        ∧ (∀ l : List (String × ℝ), (disper_processRecords edgeRegistry (fun _ v => [v]) l).2 = 0)) :=
  ⟨rfl, c8_unknown_lane_skipped_per_file edgeRegistry (fun _ v => [v]) "ghost_edge" 7
    [("237386421", 2)] rfl⟩

/-- Adding one full period before taking `% 360` changes nothing. -/
theorem pmod_add_period (x : ℝ) : pmod (x + 360) 360 = pmod x 360 := by
  unfold pmod
  have h : (x + 360) / 360 = x / 360 + 1 := by
    rw [add_div]
    norm_num
  rw [h, Int.floor_add_one]
  push_cast
  ring

/-- C4: `is_downwind` holds exactly when the circular difference between the
bearing `atan2(Δy, Δx)` normalized to `[0, 360)` and the downwind center
`(w + 180) mod 360` is at most the half-angle; the boundary is inclusive
(difference exactly `h` passes) and any strictly larger difference fails. -/
theorem c4_is_downwind_characterization (src rec : ℝ × ℝ) (w h : ℝ)
    (_hw0 : 0 ≤ w) (_hw1 : w < 360) :
    (is_downwind src rec w h ↔
      circ_diff (bearing_spec src rec) (downwind_center w) ≤ h)
    ∧ (circ_diff (bearing_spec src rec) (downwind_center w) = h →
        is_downwind src rec w h)
    ∧ (h < circ_diff (bearing_spec src rec) (downwind_center w) →
        ¬ is_downwind src rec w h) := by
  have hb : bearing_deg src rec = bearing_spec src rec :=
    pmod_add_period (np_degrees (atan2 (rec.2 - src.2) (rec.1 - src.1)))
  unfold is_downwind
  rw [hb]
  exact ⟨Iff.rfl, fun he => le_of_eq he, fun hlt hle => absurd hle (not_le.mpr hlt)⟩

/-- C4 witness: the characterization instantiated at source (0,0),
receptor (1,0), wind 90°, half-angle 45°. -/
theorem c4_is_downwind_characterization_witness :
    (0 : ℝ) ≤ 90 ∧ (90 : ℝ) < 360
    ∧ ((is_downwind (0, 0) (1, 0) 90 45 ↔
          circ_diff (bearing_spec (0, 0) (1, 0)) (downwind_center 90) ≤ 45)
        ∧ (circ_diff (bearing_spec (0, 0) (1, 0)) (downwind_center 90) = 45 →
            is_downwind (0, 0) (1, 0) 90 45)
        ∧ (45 < circ_diff (bearing_spec (0, 0) (1, 0)) (downwind_center 90) →
            ¬ is_downwind (0, 0) (1, 0) 90 45)) :=
  ⟨by norm_num, by norm_num,
   c4_is_downwind_characterization (0, 0) (1, 0) 90 45 (by norm_num) (by norm_num)⟩

/-- The relative offset `np.linspace(-L/2 + L/(2n), L/2 - L/(2n), n)[i]`
equals `(i + 0.5)·(L/n) − L/2` for `0 ≤ i < n`. -/
theorem linspace_segment_value (L : ℝ) (n i : ℕ) (hn : 0 < n) (hi : i < n) :
    linspace (-(L / 2) + L / (2 * (n : ℝ))) (L / 2 - L / (2 * (n : ℝ))) n i
      = ((i : ℝ) + 0.5) * (L / n) - L / 2 := by
  unfold linspace
  rcases eq_or_ne n 1 with h1 | h1
  · subst h1
    rw [if_pos rfl]
    have hi0 : i = 0 := Nat.lt_one_iff.mp hi
    subst hi0
    push_cast
    ring
  · rw [if_neg h1]
    have hn0 : (n : ℝ) ≠ 0 := ne_of_gt (Nat.cast_pos.mpr hn)
    have hn1 : (n : ℝ) - 1 ≠ 0 := sub_ne_zero.mpr (by exact_mod_cast h1)
    field_simp
    ring

/-- C10: for every anchor, direction, length and positive segment count, v2's
`get_segment_position` started at `anchor − 0.5·L·direction` and v3's
`get_segment_positions` started at `anchor` produce the same `i`-th point,
namely `anchor + direction·((i + 0.5)·L/n − L/2)`. -/
theorem c10_v2_v3_positions_agree (anchor dir : ℝ × ℝ) (L : ℝ) (n i : ℕ)
    (hn : 0 < n) (hi : i < n) :
    get_segment_position (anchor.1 - 0.5 * L * dir.1, anchor.2 - 0.5 * L * dir.2)
        dir L i n
      = get_segment_positions anchor dir L n i
    ∧ get_segment_positions anchor dir L n i
      = (anchor.1 + dir.1 * (((i : ℝ) + 0.5) * (L / n) - L / 2),
         anchor.2 + dir.2 * (((i : ℝ) + 0.5) * (L / n) - L / 2)) := by
  have hv3 : get_segment_positions anchor dir L n i
      = (anchor.1 + dir.1 * (((i : ℝ) + 0.5) * (L / n) - L / 2),
         anchor.2 + dir.2 * (((i : ℝ) + 0.5) * (L / n) - L / 2)) := by
    unfold get_segment_positions
    rw [linspace_segment_value L n i hn hi]
  refine ⟨?_, hv3⟩
  rw [hv3]
  unfold get_segment_position
  simp only [Prod.mk.injEq]
  constructor <;> ring

/-- C10 witness: the agreement instantiated at anchor (0,0), the North
direction (0,−1), L = 74.5, n = 10, i = 0. -/
theorem c10_v2_v3_positions_agree_witness :
    0 < 10 ∧ 0 < 10
    ∧ (get_segment_position
          ((0 : ℝ) - 0.5 * 74.5 * 0, (0 : ℝ) - 0.5 * 74.5 * (-1)) (0, -1) 74.5 0 10
        = get_segment_positions ((0 : ℝ), (0 : ℝ)) (0, -1) 74.5 10 0
      ∧ get_segment_positions ((0 : ℝ), (0 : ℝ)) (0, -1) 74.5 10 0
        = ((0 : ℝ) + 0 * (((0 : ℕ) + 0.5) * (74.5 / 10) - 74.5 / 2),
           (0 : ℝ) + (-1) * (((0 : ℕ) + 0.5) * (74.5 / 10) - 74.5 / 2))) :=
  ⟨by norm_num, by norm_num,
   c10_v2_v3_positions_agree (0, 0) (0, -1) 74.5 10 0 (by norm_num) (by norm_num)⟩

/-- C5 amended, witness at d = 0.05. -/
theorem c5_clamp_per_file_witness :
    (0 : ℝ) < 0.05
    ∧ (clamp_disper (0.05 : ℝ) = max 0.05 0.1
        ∧ (0.1 : ℝ) ≤ clamp_disper (0.05 : ℝ)
        ∧ clamp_disper (0 : ℝ) = 0.1
        ∧ clamp_v2 (0.05 : ℝ) = 0.05
        ∧ clamp_v2 (0 : ℝ) = 0.1) :=
  ⟨by norm_num, c5_clamp_per_file 0.05 (by norm_num)⟩

end Sumo
